import Mathlib

/-!
Verification of `newIDE/app/src/ResourcesList/FileToCloudProjectResourceUploader.js`.

The component lets a user pick local files and upload them as resources of a
cloud-hosted project.  We embed its pure logic: the derived invalid-file list,
the eligibility booleans, the automatic-upload trigger, the change handler of
the file input, and the result processing of `onUpload` (partitioning the
service results, building resource records, storing errors, clearing the
uploading flag).  JavaScript numbers used in the progress computation are
modelled as rationals; JS truthiness of optional strings is modelled
explicitly (null and the empty string are falsy).
-/

namespace FileToCloudUploader

/-- A locally selected browser `File`: only the name and byte size are read. -/
structure JSFile where
  name : String
  size : Nat
deriving DecidableEq

/-- `FileMetadata` of the open project; only `fileIdentifier` is used (line 77). -/
structure FileMetadata where
  fileIdentifier : String
deriving DecidableEq

/-- Render-time context: the authenticated-user flag, the active storage
provider internal name, and the (optional) project file metadata prop. -/
structure Env where
  authenticated : Bool
  storageProviderInternalName : String
  fileMetadata : Option FileMetadata
deriving DecidableEq

/-- One element of `UploadedProjectResourceFiles`, the shape the component
destructures at lines 97-107 and the spec gives as the service contract:
an optional returned url, an optional error, and the original file. -/
structure UploadedProjectResourceFile where
  url : Option String
  error : Option String
  resourceFile : JSFile
deriving DecidableEq

/-- What `setError` can hold after an upload: the errored result object thrown
at line 100, or an exception thrown during the upload call. -/
inductive StoredError where
  | fromResult (r : UploadedProjectResourceFile)
  | exception (message : String)
deriving DecidableEq

/-- A `gdResource` as observed through the three setters used at lines 105-107. -/
structure GDResource where
  file : String
  name : String
  originName : String
  originIdentifier : String
deriving DecidableEq

/-- An entry of the derived invalid-file list (lines 131-134). -/
structure InvalidFile where
  filename : String
  error : String
deriving DecidableEq

/-- Local UI state of the component: the `useState` hooks
`error`, `isUploading`, `selectedFiles`, `uploadProgress`. -/
structure ComponentState where
  error : Option StoredError
  isUploading : Bool
  selectedFiles : List JSFile
  uploadProgress : Rat

/-- JS truthiness of an optional string (the check run on `url`):
null/undefined and the empty string are falsy. -/
def truthyStr : Option String → Bool
  | none => false
  | some s => s != ""

/-- Lines 129-135: map a file to an invalid entry when its size is strictly
above the maximum, and to null otherwise.  The constant
PROJECT_RESOURCE_MAX_SIZE_IN_BYTES is kept as the parameter maxSize. -/
def invalidFileEntry (maxSize : Nat) (file : JSFile) : Option InvalidFile :=
  if file.size > maxSize then some { filename := file.name, error := "too-large" }
  else none

/-- Lines 128-138: the derived invalid-file list, recomputed from the selection
each render by mapping then filtering out the nulls. -/
def invalidFiles (maxSize : Nat) (files : List JSFile) : List InvalidFile :=
  (files.map (invalidFileEntry maxSize)).filterMap id

/-- Lines 140-141: the active storage provider is the cloud kind and project
file metadata is present. -/
def canUploadWithThisStorageProvider (env : Env) : Bool :=
  env.storageProviderInternalName == "Cloud" && env.fileMetadata.isSome

/-- Line 142: the session is authenticated. -/
def isConnected (env : Env) : Bool :=
  env.authenticated

/-- Line 77: the cloud project id derived from the file metadata. -/
def cloudProjectId (env : Env) : Option String :=
  env.fileMetadata.map FileMetadata.fileIdentifier

/-- Line 73: at least one file is selected. -/
def hasSelectedFiles (s : ComponentState) : Bool :=
  decide (0 < s.selectedFiles.length)

/-- Lines 143-144: the file input is enabled. -/
def canChooseFiles (env : Env) (s : ComponentState) : Bool :=
  !s.isUploading && isConnected env && canUploadWithThisStorageProvider env

/-- Lines 159-163: the guard of the automatic upload effect. -/
def canUploadFiles (maxSize : Nat) (env : Env) (s : ComponentState) : Bool :=
  !s.isUploading && canChooseFiles env s && hasSelectedFiles s &&
    (invalidFiles maxSize s.selectedFiles).length == 0

/-- Line 166: the effect body invokes `onUpload` when canUploadFiles and no
error is stored. -/
def autoUploadFires (maxSize : Nat) (env : Env) (s : ComponentState) : Bool :=
  canUploadFiles maxSize env s && s.error.isNone

/-- Line 94: the progress callback stores (current / total) * 100. -/
def progressPercent (current total : Rat) : Rat :=
  current / total * 100

/-- Lines 202-211: the change handler of the file input replaces the selection
wholesale with the newly chosen files and clears the stored error. -/
def onChange (s : ComponentState) (files : List JSFile) : ComponentState :=
  { s with selectedFiles := files, error := none }

/-- Lines 86-88: the state right after `onUpload` enters the try block
(uploading set, error cleared, progress reset). -/
def startUploadState (s : ComponentState) : ComponentState :=
  { s with isUploading := true, error := none, uploadProgress := 0 }

/-- What one call of the upload service does: the sequence of
(current, total) progress-callback invocations, then either a returned result
list or a thrown exception. -/
inductive ServiceOutcome where
  | returned (results : List UploadedProjectResourceFile)
  | threw (message : String)
deriving DecidableEq

/-- A full response of the upload service, progress callbacks included. -/
structure ServiceResponse where
  progressEvents : List (Rat × Rat)
  outcome : ServiceOutcome

/-- Line 97: the results whose error field is truthy (an Error object is
always truthy). -/
def erroredResults (results : List UploadedProjectResourceFile) :
    List UploadedProjectResourceFile :=
  results.filter fun r => r.error.isSome

/-- Line 98: the results whose url is truthy. -/
def okResults (results : List UploadedProjectResourceFile) :
    List UploadedProjectResourceFile :=
  results.filter fun r => truthyStr r.url

/-- Lines 103-110: build one resource record from an ok result, starting from
`createNewResource()` and applying setFile, setName, setOrigin. -/
def buildResource (blank : GDResource) (r : UploadedProjectResourceFile) :
    GDResource :=
  { blank with
    file := r.url.getD ""
    name := r.resourceFile.name
    originName := "cloud-project-resource"
    originIdentifier := r.url.getD "" }

/-- The three possible outcomes of the try/catch block of `onUpload`. -/
inductive UploadOutcome where
  | errorStored (e : StoredError)
  | resourcesChosen (resources : List GDResource)
  | nothingChosen
deriving DecidableEq

/-- Lines 97-114: partition the results; if any errored, throw the first
errored result (caught below and stored); else if any ok, choose the mapped
resources; else do nothing.  A thrown exception is caught and stored. -/
def uploadOutcome (blank : GDResource) (outcome : ServiceOutcome) : UploadOutcome :=
  match outcome with
  | .threw m => .errorStored (.exception m)
  | .returned results =>
    match erroredResults results, okResults results with
    | e :: _, _ => .errorStored (.fromResult e)
    | [], [] => .nothingChosen
    | [], ok :: oks => .resourcesChosen ((ok :: oks).map (buildResource blank))

/-- The list handed to `onChooseResources` (line 102), when it is invoked. -/
def emittedResources (blank : GDResource) (resp : ServiceResponse) :
    Option (List GDResource) :=
  match uploadOutcome blank resp.outcome with
  | .resourcesChosen rs => some rs
  | _ => none

/-- The progress value left by replaying the callback invocations of one
service call on top of the starting value. -/
def finalProgress (start : Rat) (events : List (Rat × Rat)) : Rat :=
  events.foldl (fun _ e => progressPercent e.1 e.2) start

/-- Lines 97-117: the state after the awaited service call settles, including
the catch (store the failure) and the finally (clear the uploading flag).
When nothing is thrown the stored error is left untouched. -/
def finishUploadState (blank : GDResource) (s : ComponentState)
    (resp : ServiceResponse) : ComponentState :=
  { s with
    isUploading := false
    uploadProgress := finalProgress s.uploadProgress resp.progressEvents
    error :=
      match uploadOutcome blank resp.outcome with
      | .errorStored e => some e
      | _ => s.error }

/-- Lines 80-118: one complete run of `onUpload`: the early returns when the
input element or the cloud project id is missing, then the try block from
start to settlement, paired with the list given to `onChooseResources`
(none when it is not invoked). -/
def onUploadRun (blank : GDResource) (env : Env) (inputPresent : Bool)
    (s : ComponentState) (resp : ServiceResponse) :
    ComponentState × Option (List GDResource) :=
  if !inputPresent then (s, none)
  else
    match cloudProjectId env with
    | none => (s, none)
    | some _ =>
      (finishUploadState blank (startUploadState s) resp,
        emittedResources blank resp)

/-- The arguments passed to `uploadProjectResourceFiles` (lines 89-92) when
the guards of `onUpload` pass: the cloud project id and the whole selection. -/
structure UploadRequest where
  projectId : String
  files : List JSFile
deriving DecidableEq

/-- Lines 81-92: the request sent to the upload service, none when a guard
fails.  The selected files are passed unfiltered. -/
def uploadRequest (env : Env) (s : ComponentState) (inputPresent : Bool) :
    Option UploadRequest :=
  if !inputPresent then none
  else
    match cloudProjectId env with
    | none => none
    | some pid => some { projectId := pid, files := s.selectedFiles }

/-- Lines 216-233: which alert the rendering produces for an invalid-file
entry: the too-large message, or the generic invalid-file message. -/
inductive InvalidFileAlertKind where
  | tooLargeAlert
  | genericInvalidAlert
deriving DecidableEq

/-- Line 217: the render branch taken for one invalid-file entry. -/
def invalidFileAlert (e : InvalidFile) : InvalidFileAlertKind :=
  if e.error = "too-large" then .tooLargeAlert else .genericInvalidAlert

/-- The initial state of the hooks (lines 70-78): no error, not uploading,
empty selection, progress 0. -/
def initialState : ComponentState :=
  { error := none, isUploading := false, selectedFiles := [], uploadProgress := 0 }

/-- The event-driven behaviour of the component as a step relation.  A change
event can only come from the enabled input (line 201); the automatic upload
starts only when the effect guard holds (line 166) and the guards of
`onUpload` pass; the retry button exists only when an error is stored
(line 247); a running upload settles with some service response. -/
inductive Step (blank : GDResource) (maxSize : Nat) (env : Env) :
    ComponentState → ComponentState → Prop where
  | changeFiles (s : ComponentState) (files : List JSFile) :
      canChooseFiles env s = true →
      Step blank maxSize env s (onChange s files)
  | autoUpload (s : ComponentState) :
      autoUploadFires maxSize env s = true →
      (cloudProjectId env).isSome = true →
      Step blank maxSize env s (startUploadState s)
  | retryUpload (s : ComponentState) :
      s.error.isSome = true →
      (cloudProjectId env).isSome = true →
      Step blank maxSize env s (startUploadState s)
  | uploadSettles (s : ComponentState) (resp : ServiceResponse) :
      s.isUploading = true →
      Step blank maxSize env s (finishUploadState blank s resp)

/-- The states the component can reach from its initial state. -/
inductive Reachable (blank : GDResource) (maxSize : Nat) (env : Env) :
    ComponentState → Prop where
  | init : Reachable blank maxSize env initialState
  | step (s t : ComponentState) :
      Reachable blank maxSize env s → Step blank maxSize env s t →
      Reachable blank maxSize env t

/-- Example render context used to instantiate hypotheses on concrete runs. -/
def exampleEnv : Env :=
  { authenticated := true
    storageProviderInternalName := "Cloud"
    fileMetadata := some { fileIdentifier := "project-1" } }

/-- Example blank resource, as returned by `createNewResource()`. -/
def exampleBlank : GDResource :=
  { file := "", name := "", originName := "", originIdentifier := "" }

/-- Example small selected file. -/
def exampleFile : JSFile :=
  { name := "valid.png", size := 100 }

/-- A state with an upload in flight, reached by selecting one small file and
letting the automatic upload start. -/
def exampleUploadingState : ComponentState :=
  startUploadState (onChange initialState [exampleFile])

/-- Example state with a stored error from a previous attempt. -/
def exampleErrorState : ComponentState :=
  { error := some (.exception "network")
    isUploading := false
    selectedFiles := []
    uploadProgress := 0 }

/-- Example successful service result. -/
def exampleOkResult : UploadedProjectResourceFile :=
  { url := some "https://x/y.png", error := none, resourceFile := exampleFile }

/-- Example errored service result (first in batch order). -/
def exampleErrResult1 : UploadedProjectResourceFile :=
  { url := none, error := some "first-error", resourceFile := exampleFile }

/-- Example errored service result (second in batch order). -/
def exampleErrResult2 : UploadedProjectResourceFile :=
  { url := none, error := some "second-error", resourceFile := exampleFile }

/-- Example result with neither a truthy error nor a truthy url. -/
def exampleDudResult : UploadedProjectResourceFile :=
  { url := some "", error := none, resourceFile := exampleFile }

/-- Example file whose size is exactly the maximum. -/
def exampleExactFile : JSFile :=
  { name := "exact.png", size := 5000000 }

/-- Example state whose selection is the exactly-maximum-size file. -/
def exampleExactState : ComponentState :=
  { error := none
    isUploading := false
    selectedFiles := [exampleExactFile]
    uploadProgress := 0 }

-- Helper lemmas shared by the claim theorems.

theorem invalidFiles_eq_filterMap (maxSize : Nat) (files : List JSFile) :
    invalidFiles maxSize files = files.filterMap (invalidFileEntry maxSize) := by
  simp [invalidFiles, List.filterMap_map]

theorem invalidFileEntry_eq_some_iff (maxSize : Nat) (f : JSFile) (e : InvalidFile) :
    invalidFileEntry maxSize f = some e ↔
      maxSize < f.size ∧ e = { filename := f.name, error := "too-large" } := by
  unfold invalidFileEntry
  by_cases h : f.size > maxSize <;> simp [h, eq_comm]

theorem invalidFileEntry_eq_none_iff (maxSize : Nat) (f : JSFile) :
    invalidFileEntry maxSize f = none ↔ f.size ≤ maxSize := by
  unfold invalidFileEntry
  by_cases h : f.size > maxSize <;> simp [h, Nat.le_of_not_lt]

theorem mem_invalidFiles_iff (maxSize : Nat) (files : List JSFile) (e : InvalidFile) :
    e ∈ invalidFiles maxSize files ↔
      ∃ f ∈ files, invalidFileEntry maxSize f = some e := by
  rw [invalidFiles_eq_filterMap, List.mem_filterMap]

theorem invalidFiles_eq_nil_iff (maxSize : Nat) (files : List JSFile) :
    invalidFiles maxSize files = [] ↔ ∀ f ∈ files, f.size ≤ maxSize := by
  rw [invalidFiles_eq_filterMap, List.filterMap_eq_nil_iff]
  constructor
  · intro h f hf
    exact (invalidFileEntry_eq_none_iff maxSize f).mp (h f hf)
  · intro h f hf
    exact (invalidFileEntry_eq_none_iff maxSize f).mpr (h f hf)

theorem autoUploadFires_iff (maxSize : Nat) (env : Env) (s : ComponentState) :
    autoUploadFires maxSize env s = true ↔
      (s.isUploading = false ∧ env.authenticated = true ∧
        (env.storageProviderInternalName = "Cloud" ∧ env.fileMetadata.isSome = true) ∧
        s.selectedFiles ≠ [] ∧ invalidFiles maxSize s.selectedFiles = [] ∧
        s.error = none) := by
  simp only [autoUploadFires, canUploadFiles, canChooseFiles, isConnected,
    canUploadWithThisStorageProvider, hasSelectedFiles, Bool.and_eq_true,
    Bool.not_eq_true', beq_iff_eq, decide_eq_true_eq,
    Option.isNone_iff_eq_none, List.length_eq_zero, List.length_pos]
  tauto

theorem head_filter_eq_find {α : Type} (p : α → Bool) (l : List α) :
    (l.filter p).head? = l.find? p := by
  induction l with
  | nil => rfl
  | cons a t ih =>
    by_cases h : p a
    · simp [List.filter_cons, h, List.find?_cons_of_pos]
    · simp [List.filter_cons, h, List.find?_cons_of_neg, ih]

-- In every reachable state, a stored error or an in-flight upload implies the
-- current selection has no invalid file: the auto trigger demands it, the
-- retry start keeps the selection of the errored attempt, the change handler
-- clears the error, and the input is disabled while uploading.
theorem reachable_invariant (blank : GDResource) (maxSize : Nat) (env : Env)
    (s : ComponentState) (h : Reachable blank maxSize env s) :
    (s.error.isSome = true → invalidFiles maxSize s.selectedFiles = []) ∧
    (s.isUploading = true → invalidFiles maxSize s.selectedFiles = []) := by
  induction h with
  | init => exact ⟨fun _ => rfl, fun _ => rfl⟩
  | step s t hr hstep ih =>
    cases hstep with
    | changeFiles files hc =>
      refine ⟨fun he => ?_, fun hu => ?_⟩
      · simp [onChange] at he
      · exfalso
        have hnot : s.isUploading = false := by
          simp only [canChooseFiles, Bool.and_eq_true, Bool.not_eq_true'] at hc
          exact hc.1.1
        simp only [onChange] at hu
        rw [hnot] at hu
        cases hu
    | autoUpload hf hp =>
      have hinv : invalidFiles maxSize s.selectedFiles = [] :=
        ((autoUploadFires_iff maxSize env s).mp hf).2.2.2.2.1
      exact ⟨fun he => by simp [startUploadState] at he,
        fun _ => by simpa [startUploadState] using hinv⟩
    | retryUpload he hp =>
      exact ⟨fun h2 => by simp [startUploadState] at h2,
        fun _ => by simpa [startUploadState] using ih.1 he⟩
    | uploadSettles resp hu =>
      exact ⟨fun _ => by simpa [finishUploadState] using ih.2 hu,
        fun h2 => by simp [finishUploadState] at h2⟩

/-- C1: the automatic upload trigger fires if and only if, simultaneously, the
uploading flag is false, the user is authenticated, the active storage
provider internal name is the cloud kind and project file metadata is present,
at least one file is selected, the invalid-file list is empty, and no error is
stored; under any other combination it does not fire. -/
theorem auto_upload_trigger_iff (maxSize : Nat) (env : Env) (s : ComponentState) :
    autoUploadFires maxSize env s = true ↔
      (s.isUploading = false ∧ env.authenticated = true ∧
        (env.storageProviderInternalName = "Cloud" ∧ env.fileMetadata.isSome = true) ∧
        s.selectedFiles ≠ [] ∧ invalidFiles maxSize s.selectedFiles = [] ∧
        s.error = none) :=
  autoUploadFires_iff maxSize env s

/-- C6: each invocation of the progress callback stores a percentage equal to
100 * current / total, for a well-behaved caller (0 ≤ current ≤ total,
total > 0).  JavaScript numbers are modelled as rationals. -/
theorem progress_percent_formula (current total : Rat) (_h0 : 0 ≤ current)
    (_h1 : current ≤ total) (_h2 : 0 < total) :
    progressPercent current total = 100 * current / total := by
  unfold progressPercent
  rw [div_mul_eq_mul_div, mul_comm]

/-- Witness for C6 at (current, total) = (1, 2). -/
theorem progress_percent_witness :
    (0 : Rat) ≤ 1 ∧ (1 : Rat) ≤ 2 ∧ (0 : Rat) < 2 ∧
    progressPercent 1 2 = 100 * 1 / 2 :=
  ⟨by norm_num, by norm_num, by norm_num,
    progress_percent_formula 1 2 (by norm_num) (by norm_num) (by norm_num)⟩

/-- C7: the change handler replaces the selection wholesale with the newly
chosen files and clears the stored error, regardless of the current error
state; it leaves the uploading flag and the progress untouched, so a fully
valid new selection (given an eligible, non-uploading context) re-enables the
automatic upload trigger. -/
theorem change_handler_replaces_selection (maxSize : Nat) (env : Env)
    (s : ComponentState) (files : List JSFile) :
    (onChange s files).selectedFiles = files ∧
    (onChange s files).error = none ∧
    (onChange s files).isUploading = s.isUploading ∧
    (onChange s files).uploadProgress = s.uploadProgress ∧
    (s.isUploading = false → isConnected env = true →
      canUploadWithThisStorageProvider env = true → files ≠ [] →
      invalidFiles maxSize files = [] →
      autoUploadFires maxSize env (onChange s files) = true) := by
  refine ⟨rfl, rfl, rfl, rfl, fun h1 h2 h3 h4 h5 => ?_⟩
  simp only [autoUploadFires, canUploadFiles, canChooseFiles, hasSelectedFiles,
    onChange, h1, h2, h3, h5, Bool.and_eq_true, Bool.not_eq_true']
  simp [List.length_pos, h4]

/-- Witness for C7: a new one-file valid selection on a state holding an
error. -/
theorem change_handler_witness :
    (onChange exampleErrorState [exampleFile]).selectedFiles = [exampleFile] ∧
    (onChange exampleErrorState [exampleFile]).error = none ∧
    (onChange exampleErrorState [exampleFile]).isUploading =
      exampleErrorState.isUploading ∧
    (onChange exampleErrorState [exampleFile]).uploadProgress =
      exampleErrorState.uploadProgress ∧
    autoUploadFires 5000000 exampleEnv (onChange exampleErrorState [exampleFile])
      = true := by
  obtain ⟨h1, h2, h3, h4, h5⟩ :=
    change_handler_replaces_selection 5000000 exampleEnv exampleErrorState
      [exampleFile]
  exact ⟨h1, h2, h3, h4, h5 rfl rfl rfl (by simp) rfl⟩

/-- C8: every entry of the derived invalid-file list carries the reason
too-large, and the rendering always takes the too-large branch: the generic
invalid-file branch is unreachable for every selection. -/
theorem invalid_entries_all_too_large (maxSize : Nat) (files : List JSFile) :
    ∀ e ∈ invalidFiles maxSize files,
      e.error = "too-large" ∧ invalidFileAlert e = .tooLargeAlert := by
  intro e he
  obtain ⟨f, hf, hfe⟩ := (mem_invalidFiles_iff maxSize files e).mp he
  obtain ⟨hsize, rfl⟩ := (invalidFileEntry_eq_some_iff maxSize f e).mp hfe
  exact ⟨rfl, rfl⟩

/-- Witness for C8: the entry produced by an oversized file. -/
theorem invalid_entries_witness :
    ({ filename := "big.bin", error := "too-large" } : InvalidFile).error
      = "too-large" ∧
    invalidFileAlert { filename := "big.bin", error := "too-large" }
      = .tooLargeAlert :=
  invalid_entries_all_too_large 5000000 [{ name := "big.bin", size := 5000001 }]
    { filename := "big.bin", error := "too-large" } (by decide)

/-- C2: every selected file strictly larger than the maximum produces a
(filename, too-large) entry in the derived invalid-file list; and in every
reachable state with an upload in flight — the only states in which the
selection is passed to the upload service — no selected file exceeds the
maximum, so no oversized file is ever uploaded. -/
theorem oversized_flagged_and_never_uploaded (blank : GDResource)
    (maxSize : Nat) (env : Env) (files : List JSFile) (s : ComponentState) :
    (∀ f ∈ files, maxSize < f.size →
      ({ filename := f.name, error := "too-large" } : InvalidFile) ∈
        invalidFiles maxSize files) ∧
    (Reachable blank maxSize env s → s.isUploading = true →
      ∀ f ∈ s.selectedFiles, f.size ≤ maxSize) := by
  constructor
  · intro f hf hsize
    exact (mem_invalidFiles_iff maxSize files _).mpr
      ⟨f, hf, (invalidFileEntry_eq_some_iff maxSize f _).mpr ⟨hsize, rfl⟩⟩
  · intro hr hu f hf
    exact (invalidFiles_eq_nil_iff maxSize s.selectedFiles).mp
      ((reachable_invariant blank maxSize env s hr).2 hu) f hf

/-- Witness for C2: an oversized file is flagged, and a concrete reachable
uploading state (select one small file, then the auto trigger starts the
upload) contains only files within the maximum. -/
theorem oversized_flagged_witness :
    5000000 < (5000001 : Nat) ∧
    ({ filename := "big.bin", error := "too-large" } : InvalidFile) ∈
      invalidFiles 5000000 [{ name := "big.bin", size := 5000001 }] ∧
    exampleUploadingState.isUploading = true ∧
    ∀ f ∈ exampleUploadingState.selectedFiles, f.size ≤ 5000000 := by
  have hreach1 :
      Reachable exampleBlank 5000000 exampleEnv (onChange initialState [exampleFile]) :=
    Reachable.step _ _ Reachable.init (Step.changeFiles _ _ (by decide))
  have hreach : Reachable exampleBlank 5000000 exampleEnv exampleUploadingState :=
    Reachable.step _ _ hreach1 (Step.autoUpload _ (by decide) (by decide))
  refine ⟨by norm_num, ?_, rfl, ?_⟩
  · exact (oversized_flagged_and_never_uploaded exampleBlank 5000000 exampleEnv
      [{ name := "big.bin", size := 5000001 }] exampleUploadingState).1
      { name := "big.bin", size := 5000001 } (by simp) (by norm_num)
  · exact (oversized_flagged_and_never_uploaded exampleBlank 5000000 exampleEnv
      [{ name := "big.bin", size := 5000001 }] exampleUploadingState).2 hreach rfl

/-- C3 counterexample: for the empty batch every result vacuously carries a
url and none carries an error, yet the completion callback is not invoked at
all (rather than being invoked once with an empty list, as the claim states
for N = 0). -/
theorem empty_success_batch_no_callback :
    (∀ r ∈ ([] : List UploadedProjectResourceFile),
      truthyStr r.url = true ∧ r.error = none) ∧
    emittedResources exampleBlank
      { progressEvents := [], outcome := .returned [] } = none :=
  ⟨by simp, rfl⟩

/-- C3 (amended to batches with at least one result): for every non-empty
batch in which every result carries a truthy url and none carries an error,
the completion callback is invoked exactly once with the per-result built
records, one per result in order; the i-th record takes the i-th returned
url as its file, the i-th original filename as its name, and the origin tag
cloud-project-resource with that url. -/
theorem successful_batch_emits_records (blank : GDResource)
    (results : List UploadedProjectResourceFile) (events : List (Rat × Rat))
    (hne : results ≠ [])
    (hok : ∀ r ∈ results, truthyStr r.url = true ∧ r.error = none) :
    emittedResources blank { progressEvents := events, outcome := .returned results }
      = some (results.map (buildResource blank)) ∧
    (results.map (buildResource blank)).length = results.length ∧
    ∀ i (hi : i < results.length), ∃ u : String,
      (results.get ⟨i, hi⟩).url = some u ∧
      buildResource blank (results.get ⟨i, hi⟩) =
        { file := u
          name := (results.get ⟨i, hi⟩).resourceFile.name
          originName := "cloud-project-resource"
          originIdentifier := u } := by
  have herr : erroredResults results = [] := by
    rw [erroredResults, List.filter_eq_nil_iff]
    intro a ha
    simp [(hok a ha).2]
  have hall : okResults results = results := by
    rw [okResults, List.filter_eq_self]
    intro a ha
    exact (hok a ha).1
  obtain ⟨a, t, rfl⟩ : ∃ a t, results = a :: t := by
    cases results with
    | nil => exact absurd rfl hne
    | cons a t => exact ⟨a, t, rfl⟩
  refine ⟨?_, by simp, ?_⟩
  · simp only [emittedResources, uploadOutcome, herr, hall]
  · intro i hi
    have hmem : (a :: t).get ⟨i, hi⟩ ∈ a :: t := List.get_mem (a :: t) i hi
    obtain ⟨htruthy, _⟩ := hok _ hmem
    cases hu : ((a :: t).get ⟨i, hi⟩).url with
    | none => rw [hu] at htruthy; cases htruthy
    | some u =>
      refine ⟨u, rfl, ?_⟩
      rw [List.get_eq_getElem] at hu
      simp [buildResource, List.get_eq_getElem, hu]

/-- Witness for C3 (amended): a one-result successful batch. -/
theorem successful_batch_witness :
    ([exampleOkResult] : List UploadedProjectResourceFile) ≠ [] ∧
    emittedResources exampleBlank
        { progressEvents := [], outcome := .returned [exampleOkResult] }
      = some ([exampleOkResult].map (buildResource exampleBlank)) := by
  refine ⟨by simp, ?_⟩
  exact (successful_batch_emits_records exampleBlank [exampleOkResult] []
    (by simp) (by decide)).1

/-- C4: when a returned batch contains at least one result carrying an error,
the stored error becomes the first such errored result in batch order (the
result object thrown at line 100; the errored results after it are discarded)
and the completion callback is not invoked. -/
theorem errored_batch_stores_first_error (blank : GDResource)
    (s : ComponentState) (results : List UploadedProjectResourceFile)
    (events : List (Rat × Rat)) (r : UploadedProjectResourceFile)
    (hfind : results.find? (fun x => x.error.isSome) = some r) :
    (finishUploadState blank s
        { progressEvents := events, outcome := .returned results }).error
      = some (.fromResult r) ∧
    emittedResources blank
        { progressEvents := events, outcome := .returned results } = none := by
  have h1 : (erroredResults results).head? = some r := by
    rw [erroredResults, head_filter_eq_find]
    exact hfind
  obtain ⟨t, ht⟩ : ∃ t, erroredResults results = r :: t := by
    cases he : erroredResults results with
    | nil => rw [he] at h1; cases h1
    | cons a t =>
      rw [he] at h1
      simp only [List.head?_cons, Option.some.injEq] at h1
      exact ⟨t, by rw [h1]⟩
  constructor
  · simp only [finishUploadState, uploadOutcome, ht]
  · simp only [emittedResources, uploadOutcome, ht]

/-- Witness for C4: a batch with one ok result followed by two errored
results stores the first errored result and drops the second. -/
theorem errored_batch_witness :
    ([exampleOkResult, exampleErrResult1, exampleErrResult2].find?
        (fun x => x.error.isSome)) = some exampleErrResult1 ∧
    (finishUploadState exampleBlank initialState
        { progressEvents := []
          outcome := .returned [exampleOkResult, exampleErrResult1, exampleErrResult2] }).error
      = some (.fromResult exampleErrResult1) ∧
    emittedResources exampleBlank
        { progressEvents := []
          outcome := .returned [exampleOkResult, exampleErrResult1, exampleErrResult2] }
      = none := by
  refine ⟨by decide, ?_, ?_⟩
  · exact (errored_batch_stores_first_error exampleBlank initialState
      [exampleOkResult, exampleErrResult1, exampleErrResult2] []
      exampleErrResult1 (by decide)).1
  · exact (errored_batch_stores_first_error exampleBlank initialState
      [exampleOkResult, exampleErrResult1, exampleErrResult2] []
      exampleErrResult1 (by decide)).2

/-- C5: whenever the guards of the upload action pass (input element present,
cloud project id present), the uploading flag is false once the action
completes, for every possible service response; and a failure thrown during
the upload call is stored as the current error instead of propagating. -/
theorem upload_clears_flag_and_stores_thrown (blank : GDResource) (env : Env)
    (s : ComponentState) (resp : ServiceResponse) (pid : String)
    (hpid : cloudProjectId env = some pid) :
    (onUploadRun blank env true s resp).1.isUploading = false ∧
    ∀ m, resp.outcome = .threw m →
      (onUploadRun blank env true s resp).1.error = some (.exception m) := by
  constructor
  · simp [onUploadRun, hpid, finishUploadState]
  · intro m hm
    simp [onUploadRun, hpid, finishUploadState, uploadOutcome, hm]

/-- Witness for C5: a run whose service call throws. -/
theorem upload_clears_flag_witness :
    cloudProjectId exampleEnv = some "project-1" ∧
    (onUploadRun exampleBlank exampleEnv true initialState
        { progressEvents := [], outcome := .threw "network-down" }).1.isUploading
      = false ∧
    (onUploadRun exampleBlank exampleEnv true initialState
        { progressEvents := [], outcome := .threw "network-down" }).1.error
      = some (.exception "network-down") := by
  obtain ⟨h1, h2⟩ := upload_clears_flag_and_stores_thrown exampleBlank exampleEnv
    initialState { progressEvents := [], outcome := .threw "network-down" }
    "project-1" rfl
  exact ⟨rfl, h1, h2 "network-down" rfl⟩

/-- C9: a selected file whose size equals the maximum exactly is not flagged
invalid (the check is strict); with every selected file within the maximum
and the other trigger conditions holding, the automatic upload fires and the
request passed to the upload service carries the whole selection, the
exact-size file included. -/
theorem exact_max_size_file_not_flagged (maxSize : Nat) (pid : String)
    (env : Env) (s : ComponentState) (f : JSFile)
    (hsize : f.size = maxSize) (hmem : f ∈ s.selectedFiles)
    (hall : ∀ g ∈ s.selectedFiles, g.size ≤ maxSize)
    (hpid : cloudProjectId env = some pid)
    (hup : s.isUploading = false) (hconn : isConnected env = true)
    (hsp : canUploadWithThisStorageProvider env = true) (herr : s.error = none) :
    invalidFileEntry maxSize f = none ∧
    invalidFiles maxSize s.selectedFiles = [] ∧
    autoUploadFires maxSize env s = true ∧
    uploadRequest env s true = some { projectId := pid, files := s.selectedFiles } ∧
    f ∈ s.selectedFiles := by
  have hnil : invalidFiles maxSize s.selectedFiles = [] :=
    (invalidFiles_eq_nil_iff maxSize s.selectedFiles).mpr hall
  refine ⟨(invalidFileEntry_eq_none_iff maxSize f).mpr (le_of_eq hsize),
    hnil, ?_, ?_, hmem⟩
  · refine (autoUploadFires_iff maxSize env s).mpr
      ⟨hup, ?_, ?_, List.ne_nil_of_mem hmem, hnil, herr⟩
    · simpa [isConnected] using hconn
    · simpa [canUploadWithThisStorageProvider, Bool.and_eq_true,
        beq_iff_eq] using hsp
  · simp [uploadRequest, hpid]

/-- Witness for C9: a single selected file of exactly the maximum size. -/
theorem exact_max_size_witness :
    invalidFileEntry 5000000 exampleExactFile = none ∧
    invalidFiles 5000000 exampleExactState.selectedFiles = [] ∧
    autoUploadFires 5000000 exampleEnv exampleExactState = true ∧
    uploadRequest exampleEnv exampleExactState true
      = some { projectId := "project-1", files := exampleExactState.selectedFiles } ∧
    exampleExactFile ∈ exampleExactState.selectedFiles :=
  exact_max_size_file_not_flagged 5000000 "project-1" exampleEnv
    exampleExactState exampleExactFile rfl (by simp [exampleExactState])
    (by decide) rfl rfl rfl rfl rfl

/-- C10: a result carrying neither a truthy error nor a truthy url (for
example an empty-string url and no error) lands in neither partition; and
when every result of the batch is of this kind — the empty batch included —
the run completes with no error stored and without invoking the completion
callback. -/
theorem dud_results_dropped (blank : GDResource) (env : Env)
    (s : ComponentState) (results : List UploadedProjectResourceFile)
    (events : List (Rat × Rat)) (r : UploadedProjectResourceFile)
    (pid : String) (hpid : cloudProjectId env = some pid)
    (hre : r.error = none) (hru : truthyStr r.url = false)
    (hall : ∀ x ∈ results, x.error = none ∧ truthyStr x.url = false) :
    r ∉ erroredResults results ∧
    r ∉ okResults results ∧
    (onUploadRun blank env true s
        { progressEvents := events, outcome := .returned results }).1.error
      = none ∧
    (onUploadRun blank env true s
        { progressEvents := events, outcome := .returned results }).2 = none := by
  have herr : erroredResults results = [] := by
    rw [erroredResults, List.filter_eq_nil_iff]
    intro a ha
    simp [(hall a ha).1]
  have hok : okResults results = [] := by
    rw [okResults, List.filter_eq_nil_iff]
    intro a ha
    simp [(hall a ha).2]
  refine ⟨?_, ?_, ?_, ?_⟩
  · intro hmem
    rw [erroredResults, List.mem_filter] at hmem
    simp [hre] at hmem
  · intro hmem
    rw [okResults, List.mem_filter] at hmem
    rw [hru] at hmem
    cases hmem.2
  · simp [onUploadRun, hpid, finishUploadState, uploadOutcome, herr, hok,
      startUploadState]
  · simp [onUploadRun, hpid, emittedResources, uploadOutcome, herr, hok]

/-- Witness for C10: a one-result batch whose only result has an
empty-string url and no error. -/
theorem dud_results_witness :
    exampleDudResult.error = none ∧
    truthyStr exampleDudResult.url = false ∧
    exampleDudResult ∉ erroredResults [exampleDudResult] ∧
    exampleDudResult ∉ okResults [exampleDudResult] ∧
    (onUploadRun exampleBlank exampleEnv true initialState
        { progressEvents := [], outcome := .returned [exampleDudResult] }).1.error
      = none ∧
    (onUploadRun exampleBlank exampleEnv true initialState
        { progressEvents := [], outcome := .returned [exampleDudResult] }).2
      = none := by
  obtain ⟨h1, h2, h3, h4⟩ := dud_results_dropped exampleBlank exampleEnv
    initialState [exampleDudResult] [] exampleDudResult "project-1" rfl rfl
    (by decide) (by decide)
  exact ⟨rfl, by decide, h1, h2, h3, h4⟩

end FileToCloudUploader
